import Mathlib

/-!
Verification development for the pants `process_executor` binary
(`src/rust/engine/process_executor/src/main.rs`) and the options
`Config` merge (`src/rust/engine/client/src/options/config.rs`).

The Rust code is shallowly embedded: each Rust function that the claims
touch becomes a Lean definition of the same name.  Stateful interaction
with the content-addressable Store is made explicit: a `Store` value is
passed in, and every function that may load from the Store returns,
next to its `Except` result, the list of digests it asked the Store
for, in order.  External collaborator crates (hashing, fs, store,
protos) are modelled from the contract the spec gives them; each such
definition carries a doc comment saying so.
-/

instance {ε α : Type} [DecidableEq ε] [DecidableEq α] : DecidableEq (Except ε α) :=
  fun x y =>
    match x, y with
    | Except.ok a, Except.ok b =>
      if h : a = b then isTrue (by rw [h]) else isFalse (by simp [h])
    | Except.error a, Except.error b =>
      if h : a = b then isTrue (by rw [h]) else isFalse (by simp [h])
    | Except.ok _, Except.error _ => isFalse (by simp)
    | Except.error _, Except.ok _ => isFalse (by simp)

namespace Pants

/-! ## Digests and fingerprints (hashing crate, external collaborator) -/

/-- Modelled from the spec: a fingerprint is a 256-bit content hash; we
represent it by its canonical (lowercase) 64-character hex string. -/
def Fingerprint := String

instance : DecidableEq Fingerprint := inferInstanceAs (DecidableEq String)

/-- Modelled from the spec: a digest is a content fingerprint plus a byte
length. -/
structure Digest where
  hash : Fingerprint
  size_bytes : Nat
deriving DecidableEq

/-- Mirrors `Digest::new(fingerprint, length)`. -/
def Digest.new (fp : Fingerprint) (n : Nat) : Digest := ⟨fp, n⟩

def isHexDigit (c : Char) : Bool :=
  c.isDigit || (decide ('a' ≤ c) && decide (c ≤ 'f'))
    || (decide ('A' ≤ c) && decide (c ≤ 'F'))

/-- Modelled from the spec: `Fingerprint::from_hex_string` (hashing crate)
accepts exactly the 64-character hex strings and normalizes them to the
canonical lowercase form; anything else is an error naming the offending
string. -/
def Fingerprint.from_hex_string (s : String) : Except String Fingerprint :=
  if s.length = 64 && s.data.all isHexDigit then
    Except.ok (String.mk (s.data.map Char.toLower))
  else
    Except.error s

/-! ## Protocol messages (protos crate, external collaborator) -/

/-- Wire-format digest message: hash as hex string plus size. -/
structure DigestProto where
  hash : String
  size_bytes : Nat
deriving DecidableEq

/-- Wire-format duration: seconds (int64) plus nanos (int32). -/
structure ProtoDuration where
  seconds : Int
  nanos : Int
deriving DecidableEq

/-- Remote-execution protocol Action message (the fields this binary reads). -/
structure Action where
  command_digest : Option DigestProto
  input_root_digest : Option DigestProto
  timeout : Option ProtoDuration
deriving DecidableEq

structure EnvironmentVariable where
  name : String
  value : String
deriving DecidableEq

/-- Remote-execution protocol Command message (the fields this binary reads). -/
structure Command where
  arguments : List String
  environment_variables : List EnvironmentVariable
  output_files : List String
  output_directories : List String
  working_directory : String
deriving DecidableEq

/-- Buildbarn protocol UncachedActionResult message (the field this binary
reads). -/
structure UncachedActionResult where
  action_digest : Option DigestProto
deriving DecidableEq

/-- Modelled from the spec: `require_digest` (protos crate) converts an
optional wire digest into a `Digest`, failing when the field is missing or
its hash is not a valid fingerprint. -/
def require_digest (odp : Option DigestProto) : Except String Digest :=
  match odp with
  | none => Except.error "required digest field was missing"
  | some dp =>
    match Fingerprint.from_hex_string dp.hash with
    | Except.error e => Except.error e
    | Except.ok fp => Except.ok (Digest.new fp dp.size_bytes)

/-! ## Store facade (store crate, external collaborator) -/

/-- A blob held by the Store.  Decoding a blob as a given protocol message
succeeds exactly when the blob is a serialization of such a message; the
`raw` variant stands for bytes that decode as none of them. -/
inductive Blob where
  | action (a : Action)
  | command (c : Command)
  | uncachedActionResult (r : UncachedActionResult)
  | raw (bytes : List Nat)
deriving DecidableEq

def Action.decode : Blob → Except Unit Action
  | Blob.action a => Except.ok a
  | _ => Except.error ()

def Command.decode : Blob → Except Unit Command
  | Blob.command c => Except.ok c
  | _ => Except.error ()

def UncachedActionResult.decode : Blob → Except Unit UncachedActionResult
  | Blob.uncachedActionResult r => Except.ok r
  | _ => Except.error ()

/-- Modelled from the spec: the Store facade exposes load-bytes-by-digest
with a decode callback, and load-directory-by-digest.  We model its state
as a finite map from digests to blobs plus the set of digests that load
as directories. -/
structure Store where
  files : List (Digest × Blob)
  dirs : List Digest

def Store.lookupFile (s : Store) (d : Digest) : Option Blob :=
  go s.files
where
  go : List (Digest × Blob) → Option Blob
    | [] => none
    | (d2, b) :: rest => if d2 = d then some b else go rest

/-- Whether `load_directory` on this digest succeeds. -/
def Store.hasDir (s : Store) (d : Digest) : Bool :=
  s.dirs.contains d

/-! ## Errors of the request resolver

One constructor per distinct error construction site in `main.rs`, each
carrying the data that the Rust format string interpolates. -/

inductive RErr where
  /-- Line 420: no input shape was supplied. -/
  | mustSpecify
  /-- Line 423: an unsupported combination of input flags was supplied. -/
  | unsupportedCombination
  /-- A `RelativePath::new` failure propagated verbatim by a collect. -/
  | relPathError (path : String)
  /-- The working-directory flavor of the `RelativePath::new` failure. -/
  | workingDirNotRelative (path : String)
  /-- Store miss while loading the Action proto (enrich at line 505). -/
  | couldNotLoadActionProto (d : Digest)
  /-- Decode failure of the Action proto (lines 506-511). -/
  | errorDeserializingAction (d : Digest)
  /-- Bad Command digest reference in the Action (lines 513-514). -/
  | badCommandDigest
  /-- Store miss while loading the Command proto (lines 518-521). -/
  | couldNotLoadCommandProto (d : Digest)
  /-- Decode failure of the Command proto (lines 522-527). -/
  | errorDeserializingCommand (d : Digest)
  /-- Bad input root digest reference in the Action (line 539). -/
  | badInputRootDigest
  /-- Failure of the eager input-root directory load (lines 544-547). -/
  | loadDirError (d : Digest)
  /-- Line 599: buildbarn URL had fewer than four parts. -/
  | urlNotEnoughParts
  /-- Bad hex fingerprint segment in the buildbarn URL. -/
  | badFingerprintHex (s : String)
  /-- Line 610: non-numeric action digest length in the URL. -/
  | couldNotParseActionDigestLength (s : String)
  /-- Lines 615-620: non-numeric uncached action result length. -/
  | couldNotParseUncachedLength (s : String)
  /-- Store miss while loading the UncachedActionResult proto (line 629). -/
  | couldNotLoadActionResult (d : Digest)
  /-- Decode failure of the UncachedActionResult proto (line 630). -/
  | errorDeserializingActionResult
  /-- Propagated `require_digest` failure at line 632. -/
  | requireDigestError (msg : String)
  /-- Lines 634-639: unrecognized kind tag in the buildbarn URL. -/
  | wrongKind (kind : String)
deriving DecidableEq

/-! ## Process data model (process_execution crate types) -/

inductive Platform where
  | linux_x86_64
  | linux_arm64
  | macos_x86_64
  | macos_arm64
deriving DecidableEq

inductive Level where
  | error
  | warn
  | info
  | debug
  | trace
deriving DecidableEq

inductive ProcessCacheScope where
  | always
  | successful
  | perSession
deriving DecidableEq

inductive ProcessExecutionStrategy where
  | local
  | remoteExecution (extra_platform_properties : List (String × String))
deriving DecidableEq

/-- Rust std Duration: whole seconds plus a nanosecond remainder. -/
structure Duration where
  secs : Nat
  nanos : Nat
deriving DecidableEq

def Duration.new (s n : Nat) : Duration :=
  ⟨s + n / 1000000000, n % 1000000000⟩

def Duration.from_nanos (n : Nat) : Duration :=
  ⟨n / 1000000000, n % 1000000000⟩

def Duration.from_millis (n : Nat) : Duration :=
  Duration.from_nanos (n * 1000000)

def Duration.from_secs (n : Nat) : Duration :=
  ⟨n, 0⟩

/-- Two to the sixty-fourth, the modulus of u64 arithmetic. -/
def U64SIZE : Nat := 18446744073709551616

/-- Rust `as u64` on a signed integer: two-complement reinterpretation. -/
def intToU64 (i : Int) : Nat := (i % (U64SIZE : Int)).toNat

/-- Split a character list at every slash; the Rust `str::split` on the
slash character, written structurally. -/
def splitOnSlash : List Char → List (List Char)
  | [] => [[]]
  | c :: rest =>
    let r := splitOnSlash rest
    if c = '/' then [] :: r
    else
      match r with
      | [] => [[c]]
      | g :: gs => (c :: g) :: gs

/-- Rust `str::split` on the slash character, as a string function. -/
def splitSlashes (s : String) : List String :=
  (splitOnSlash s.data).map (fun cs => String.mk cs)

/-- Rust `str::parse::<usize>` on a URL segment: all-digit strings only. -/
def parseNat (s : String) : Option Nat :=
  if s.data ≠ [] && s.data.all Char.isDigit then
    some (s.data.foldl (fun n c => n * 10 + (c.toNat - 48)) 0)
  else none

/-- Validated relative path, as its list of normal components. -/
def RelativePath := List String

instance : DecidableEq RelativePath := inferInstanceAs (DecidableEq (List String))

/-- Modelled from the spec: `RelativePath::new` (fs crate) accepts a path
that is strictly relative to and contained within the sandbox root, and
rejects any path escaping the root, e.g. one containing parent-directory
segments.  On failure the error names the offending path. -/
def RelativePath.new (path : String) : Except String RelativePath :=
  if path.data.head? = some '/' then Except.error path
  else
    let comps := (splitSlashes path).filter (fun c => c ≠ "" && c ≠ ".")
    if comps.contains ".." then Except.error path else Except.ok comps

/-- Modelled from the spec: the flat shape builds an InputDigests value
directly from the given root digest, no further dereferencing needed. -/
structure InputDigests where
  complete : Digest
deriving DecidableEq

def InputDigests.new (_store : Store) (input_files : Digest) : InputDigests :=
  ⟨input_files⟩

def InputDigests.with_input_files (d : Digest) : InputDigests :=
  ⟨d⟩

/-! ## Generic association containers (BTreeMap / BTreeSet semantics) -/

/-- BTreeMap insert on an association list: replace in place, else append. -/
def assocUpdate {ν : Type} : List (String × ν) → String → ν → List (String × ν)
  | [], k, v => [(k, v)]
  | (k2, v2) :: rest, k, v =>
    if k2 = k then (k, v) :: rest else (k2, v2) :: assocUpdate rest k v

def assocLookup {ν : Type} : List (String × ν) → String → Option ν
  | [], _ => none
  | (k2, v2) :: rest, k => if k2 = k then some v2 else assocLookup rest k

/-- Collect a list of pairs into a BTreeMap: later keys overwrite. -/
def assocOfList {ν : Type} (l : List (String × ν)) : List (String × ν) :=
  l.foldl (fun m kv => assocUpdate m kv.1 kv.2) []

/-- Lexicographic strict order on relative paths, for BTreeSet order. -/
def rpLt : List String → List String → Bool
  | [], [] => false
  | [], _ :: _ => true
  | _ :: _, [] => false
  | a :: as2, b :: bs => if a < b then true else if b < a then false else rpLt as2 bs

/-- BTreeSet insert for relative paths: sorted, deduplicating. -/
def rpSetInsert : List RelativePath → RelativePath → List RelativePath
  | [], p => [p]
  | q :: rest, p =>
    if rpLt p q then p :: q :: rest
    else if rpLt q p then q :: rpSetInsert rest p
    else q :: rest

/-- Collect relative paths into a BTreeSet. -/
def rpSetOfList (l : List RelativePath) : List RelativePath :=
  l.foldl rpSetInsert []

/-- Helper for `splitKV`: accumulate the key until the first equals sign,
the remainder is the value. -/
def splitKVChars : List Char → List Char → String × String
  | acc, [] => (String.mk acc.reverse, "")
  | acc, c :: rest =>
    if c = '=' then (String.mk acc.reverse, String.mk rest)
    else splitKVChars (c :: acc) rest

/-- Rust `kv.splitn(2, ..)` on the equals sign: key is everything before
the first equals sign, value the remainder (empty when absent). -/
def splitKV (kv : String) : String × String :=
  splitKVChars [] kv.data

/-- `collection_from_keyvalues` collected into a Vec (order-preserving). -/
def collection_from_keyvalues_vec (kvs : List String) : List (String × String) :=
  kvs.map splitKV

/-- `collection_from_keyvalues` collected into a BTreeMap. -/
def collection_from_keyvalues_map (kvs : List String) : List (String × String) :=
  kvs.foldl (fun m kv => let p := splitKV kv; assocUpdate m p.1 p.2) []

/-! ## CLI options (the fields `make_request` and the runner builder read) -/

structure CommandSpec where
  argv : List String
  input_digest : Option Fingerprint
  input_digest_length : Option Nat
  extra_platform_property : List String
  env : List String
  jdk : Option String
  output_file_path : List String
  output_directory_path : List String
  working_directory : Option String
  concurrency_available : Option Nat
  cache_key_gen_version : Option String

structure ActionDigestSpec where
  action_digest : Option Fingerprint
  action_digest_length : Option Nat

structure Opt where
  command : CommandSpec
  action_digest : ActionDigestSpec
  buildbarn_url : Option String
  remote_instance_name : Option String
  server : Option String
  work_dir : Option String
  named_cache_path : Option String
  overall_deadline_secs : Nat
  execution_rpc_concurrency : Nat
  cache_rpc_concurrency : Nat

/-! ## Process and metadata -/

structure Process where
  argv : List String
  env : List (String × String)
  working_directory : Option RelativePath
  input_digests : InputDigests
  output_files : List RelativePath
  output_directories : List RelativePath
  timeout : Option Duration
  description : String
  level : Level
  append_only_caches : List (String × String)
  jdk_home : Option String
  platform : Platform
  execution_slot_variable : Option String
  concurrency_available : Nat
  cache_scope : ProcessCacheScope
  execution_strategy : ProcessExecutionStrategy
  remote_cache_speculation_delay : Duration
deriving DecidableEq

structure ProcessMetadata where
  instance_name : Option String
  cache_key_gen_version : Option String
deriving DecidableEq

abbrev Resolved := Process × ProcessMetadata

/-! ## Request resolver -/

/-- Collect `RelativePath::new` over a list of paths, stopping at the first
failure and wrapping its message with `wrap` (the identity propagation of
the Rust collect, or the working-directory format). -/
def collectRelPaths (wrap : String → RErr) : List String → Except RErr (List RelativePath)
  | [] => Except.ok []
  | p :: rest =>
    match RelativePath.new p with
    | Except.error msg => Except.error (wrap msg)
    | Except.ok rp =>
      match collectRelPaths wrap rest with
      | Except.error e => Except.error e
      | Except.ok rps => Except.ok (rp :: rps)

/-- Lines 448-456: validate the optional working-directory flag of the
flat shape (`map` over the option, then `transpose`). -/
def flat_working_directory (owd : Option String) : Except RErr (Option RelativePath) :=
  match owd with
  | none => Except.ok none
  | some wd =>
    match RelativePath.new wd with
    | Except.error msg => Except.error (RErr.workingDirNotRelative msg)
    | Except.ok rp => Except.ok (some rp)

/-- Lines 528-535: derive the optional working directory of a decoded
Command: absent when the Command gives the empty string, validated as a
relative path otherwise. -/
def command_working_directory (command : Command) : Except RErr (Option RelativePath) :=
  if command.working_directory = "" then Except.ok none
  else
    match RelativePath.new command.working_directory with
    | Except.error msg => Except.error (RErr.workingDirNotRelative msg)
    | Except.ok rp => Except.ok (some rp)

/-- Lines 384-394 of `make_request`: strategy and platform are a function
of whether a remote execution server address is configured.  The probed
host platform is passed in as `current_platform`. -/
def strategy_and_platform (args : Opt) (current_platform : Platform) :
    ProcessExecutionStrategy × Platform :=
  if args.server.isSome then
    (ProcessExecutionStrategy.remoteExecution
      (collection_from_keyvalues_vec args.command.extra_platform_property),
     Platform.linux_x86_64)
  else
    (ProcessExecutionStrategy.local, current_platform)

/-- `make_request_from_flat_args` (lines 428-492). -/
def make_request_from_flat_args (store : Store) (args : Opt) (input_files : Digest)
    (execution_strategy : ProcessExecutionStrategy) (platform : Platform) :
    Except RErr Resolved × List Digest :=
  match collectRelPaths RErr.relPathError args.command.output_file_path with
  | Except.error e => (Except.error e, [])
  | Except.ok output_files =>
    match collectRelPaths RErr.relPathError args.command.output_directory_path with
    | Except.error e => (Except.error e, [])
    | Except.ok output_directories =>
      match flat_working_directory args.command.working_directory with
      | Except.error e => (Except.error e, [])
      | Except.ok working_directory =>
        let input_digests := InputDigests.new store input_files
        (Except.ok
          ({ argv := args.command.argv,
             env := collection_from_keyvalues_map args.command.env,
             working_directory := working_directory,
             input_digests := input_digests,
             output_files := rpSetOfList output_files,
             output_directories := rpSetOfList output_directories,
             timeout := some (Duration.new (15 * 60) 0),
             description := "process_executor",
             level := Level.info,
             append_only_caches := [],
             jdk_home := args.command.jdk,
             platform := platform,
             execution_slot_variable := none,
             concurrency_available := args.command.concurrency_available.getD 0,
             cache_scope := ProcessCacheScope.always,
             execution_strategy := execution_strategy,
             remote_cache_speculation_delay := Duration.from_millis 0 },
           { instance_name := args.remote_instance_name,
             cache_key_gen_version := args.command.cache_key_gen_version }), [])

/-- `extract_request_from_action_digest` (lines 495-589).  The returned
list records, in order, the digests asked of the Store. -/
def extract_request_from_action_digest (store : Store) (action_digest : Digest)
    (execution_strategy : ProcessExecutionStrategy) (platform : Platform)
    (instance_name : Option String) :
    Except RErr Resolved × List Digest :=
  match store.lookupFile action_digest with
  | none => (Except.error (RErr.couldNotLoadActionProto action_digest), [action_digest])
  | some blob =>
    match Action.decode blob with
    | Except.error _ => (Except.error (RErr.errorDeserializingAction action_digest), [action_digest])
    | Except.ok action =>
      match require_digest action.command_digest with
      | Except.error _ => (Except.error RErr.badCommandDigest, [action_digest])
      | Except.ok command_digest =>
        match store.lookupFile command_digest with
        | none =>
          (Except.error (RErr.couldNotLoadCommandProto command_digest),
           [action_digest, command_digest])
        | some cblob =>
          match Command.decode cblob with
          | Except.error _ =>
            (Except.error (RErr.errorDeserializingCommand command_digest),
             [action_digest, command_digest])
          | Except.ok command =>
            match command_working_directory command with
            | Except.error e => (Except.error e, [action_digest, command_digest])
            | Except.ok working_directory =>
              match require_digest action.input_root_digest with
              | Except.error _ =>
                (Except.error RErr.badInputRootDigest, [action_digest, command_digest])
              | Except.ok input_root_digest =>
                let input_digests := InputDigests.with_input_files input_root_digest
                match store.hasDir input_digests.complete with
                | false =>
                  (Except.error (RErr.loadDirError input_digests.complete),
                   [action_digest, command_digest, input_digests.complete])
                | true =>
                  match collectRelPaths RErr.relPathError command.output_files with
                  | Except.error e =>
                    (Except.error e, [action_digest, command_digest, input_digests.complete])
                  | Except.ok output_files =>
                    match collectRelPaths RErr.relPathError command.output_directories with
                    | Except.error e =>
                      (Except.error e, [action_digest, command_digest, input_digests.complete])
                    | Except.ok output_directories =>
                      (Except.ok
                        ({ argv := command.arguments,
                           env := assocOfList (command.environment_variables.map
                             (fun ev => (ev.name, ev.value))),
                           working_directory := working_directory,
                           input_digests := input_digests,
                           output_files := rpSetOfList output_files,
                           output_directories := rpSetOfList output_directories,
                           timeout := action.timeout.map (fun t =>
                             Duration.from_nanos
                               ((intToU64 t.nanos +
                                 (intToU64 t.seconds * 1000000000) % U64SIZE) % U64SIZE)),
                           execution_slot_variable := none,
                           concurrency_available := 0,
                           description := "",
                           level := Level.error,
                           append_only_caches := [],
                           jdk_home := none,
                           platform := platform,
                           cache_scope := ProcessCacheScope.always,
                           execution_strategy := execution_strategy,
                           remote_cache_speculation_delay := Duration.from_millis 0 },
                         { instance_name := instance_name,
                           cache_key_gen_version := none }),
                       [action_digest, command_digest, input_digests.complete])

/-- Rust `trim_end_matches` on the slash character. -/
def trimTrailingSlashes (url : String) : String :=
  String.mk ((url.data.reverse.dropWhile (fun c => c = '/')).reverse)

/-- `extract_request_from_buildbarn_url` (lines 591-650). -/
def extract_request_from_buildbarn_url (store : Store) (buildbarn_url : String)
    (execution_strategy : ProcessExecutionStrategy) (platform : Platform) :
    Except RErr Resolved × List Digest :=
  let url_parts := splitSlashes (trimTrailingSlashes buildbarn_url)
  if url_parts.length < 4 then (Except.error RErr.urlNotEnoughParts, [])
  else
    match url_parts.drop (url_parts.length - 4) with
    | kind :: inst :: s2 :: s3 :: _ =>
      let kindResult : Except RErr Digest × List Digest :=
        if kind = "action" then
          match Fingerprint.from_hex_string s2 with
          | Except.error s => (Except.error (RErr.badFingerprintHex s), [])
          | Except.ok action_fingerprint =>
            match parseNat s3 with
            | none => (Except.error (RErr.couldNotParseActionDigestLength s3), [])
            | some len => (Except.ok (Digest.new action_fingerprint len), [])
        else if kind = "uncached_action_result" then
          match Fingerprint.from_hex_string s2 with
          | Except.error s => (Except.error (RErr.badFingerprintHex s), [])
          | Except.ok action_result_fingerprint =>
            match parseNat s3 with
            | none => (Except.error (RErr.couldNotParseUncachedLength s3), [])
            | some len =>
              let action_result_digest := Digest.new action_result_fingerprint len
              match store.lookupFile action_result_digest with
              | none =>
                (Except.error (RErr.couldNotLoadActionResult action_result_digest),
                 [action_result_digest])
              | some blob =>
                match UncachedActionResult.decode blob with
                | Except.error _ =>
                  (Except.error RErr.errorDeserializingActionResult, [action_result_digest])
                | Except.ok action_result =>
                  match require_digest action_result.action_digest with
                  | Except.error msg =>
                    (Except.error (RErr.requireDigestError msg), [action_result_digest])
                  | Except.ok d => (Except.ok d, [action_result_digest])
        else (Except.error (RErr.wrongKind kind), [])
      match kindResult with
      | (Except.error e, log) => (Except.error e, log)
      | (Except.ok action_digest, log) =>
        let res := extract_request_from_action_digest store action_digest
          execution_strategy platform (some inst)
        (res.1, log ++ res.2)
    | _ => (Except.error RErr.urlNotEnoughParts, [])

/-- `make_request` (lines 380-426). -/
def make_request (store : Store) (args : Opt) (current_platform : Platform) :
    Except RErr Resolved × List Digest :=
  let sp := strategy_and_platform args current_platform
  match args.command.input_digest, args.command.input_digest_length,
        args.action_digest.action_digest, args.action_digest.action_digest_length,
        args.buildbarn_url with
  | some input_digest, some input_digest_length, none, none, none =>
    make_request_from_flat_args store args
      (Digest.new input_digest input_digest_length) sp.1 sp.2
  | none, none, some action_fingerprint, some action_digest_length, none =>
    extract_request_from_action_digest store
      (Digest.new action_fingerprint action_digest_length) sp.1 sp.2
      args.remote_instance_name
  | none, none, none, none, some buildbarn_url =>
    extract_request_from_buildbarn_url store buildbarn_url sp.1 sp.2
  | none, none, none, none, none =>
    (Except.error RErr.mustSpecify, [])
  | _, _, _, _, _ =>
    (Except.error RErr.unsupportedCombination, [])

/-! ## Runner pipeline builder (main, lines 285-350) -/

inductive KeepSandboxes where
  | never
  | always
  | onFailure
deriving DecidableEq

inductive CacheContentBehavior where
  | fetch
  | validate
  | defer
deriving DecidableEq

inductive RemoteCacheWarningsBehavior where
  | ignore
  | firstOnly
  | backoff
deriving DecidableEq

/-- The composed command runner.  The constructors mirror the three
`CommandRunner` constructions in `main`; the cache runner holds its inner
delegate, reproducing the decorator chain. -/
inductive CommandRunner where
  /-- `process_execution::local::CommandRunner::new` (lines 338-349). -/
  | localRunner (store : Store) (workdir : String) (named_caches : String)
      (immutable_inputs_workdir : String) (keep : KeepSandboxes)
  /-- `process_execution::remote::CommandRunner::new` (lines 300-312). -/
  | remote (address : String) (instance_name : Option String)
      (cache_key_gen_version : Option String) (store : Store)
      (overall_deadline : Duration) (retry_interval : Duration)
      (execution_concurrency : Nat)
  /-- `process_execution::remote_cache::CommandRunner::new` (lines 314-334). -/
  | remoteCache (inner : CommandRunner) (instance_name : Option String)
      (cache_key_gen_version : Option String) (store : Store) (address : String)
      (cache_read : Bool) (cache_write : Bool)
      (warnings : RemoteCacheWarningsBehavior) (content : CacheContentBehavior)
      (cache_concurrency : Nat) (append_timeout : Duration)

/-- Number of remote-cache layers in a runner chain. -/
def CommandRunner.cacheLayers : CommandRunner → Nat
  | CommandRunner.localRunner _ _ _ _ _ => 0
  | CommandRunner.remote _ _ _ _ _ _ _ => 0
  | CommandRunner.remoteCache inner _ _ _ _ _ _ _ _ _ _ => inner.cacheLayers + 1

/-- Modelled from the spec: default named-cache directory, used when the
flag is absent. -/
def NamedCaches.default_path : String := ".cache/pants/named_caches"

/-- The `match args.server` of `main` (lines 285-350) that composes the
runner pipeline.  `workdir` is the already-resolved working directory of
line 283 and `md` the metadata returned by `make_request`. -/
def build_runner (args : Opt) (md : ProcessMetadata) (store : Store)
    (workdir : String) : CommandRunner :=
  match args.server with
  | some address =>
    let remote_runner := CommandRunner.remote address md.instance_name
      md.cache_key_gen_version store
      (Duration.from_secs args.overall_deadline_secs) (Duration.from_millis 100)
      args.execution_rpc_concurrency
    CommandRunner.remoteCache remote_runner md.instance_name
      md.cache_key_gen_version store address true true
      RemoteCacheWarningsBehavior.backoff CacheContentBehavior.defer
      args.cache_rpc_concurrency (Duration.from_secs 2)
  | none =>
    CommandRunner.localRunner store workdir
      (args.named_cache_path.getD NamedCaches.default_path) workdir
      KeepSandboxes.never

/-! ## Observations used to state the claims -/

/-- An input shape counts as supplied when any of its selection flags is
present. -/
def flatShapeSupplied (args : Opt) : Bool :=
  args.command.input_digest.isSome || args.command.input_digest_length.isSome

def actionShapeSupplied (args : Opt) : Bool :=
  args.action_digest.action_digest.isSome || args.action_digest.action_digest_length.isSome

def urlShapeSupplied (args : Opt) : Bool :=
  args.buildbarn_url.isSome

/-- How many of the three mutually exclusive input shapes are supplied. -/
def shapesSupplied (args : Opt) : Nat :=
  (if flatShapeSupplied args then 1 else 0) +
  (if actionShapeSupplied args then 1 else 0) +
  (if urlShapeSupplied args then 1 else 0)

/-- Whether an error belongs to the path-validation taxonomy class. -/
def RErr.isPathError : RErr → Bool
  | RErr.relPathError _ => true
  | RErr.workingDirNotRelative _ => true
  | _ => false

/-- The timeout of a successful resolution, `none` on a failed one. -/
def resolvedTimeout (r : Except RErr Resolved) : Option (Option Duration) :=
  match r with
  | Except.ok pr => some pr.1.timeout
  | Except.error _ => none

/-- The description and level of a successful resolution. -/
def resolvedDescriptionLevel (r : Except RErr Resolved) : Option (String × Level) :=
  match r with
  | Except.ok pr => some (pr.1.description, pr.1.level)
  | Except.error _ => none

/-! ## Concrete sample data, used by witnesses and counterexamples -/

/-- Sample fingerprint: sixty-four times the letter a. -/
def fpA : String := "".pushn 'a' 64

def fpB : String := "".pushn 'b' 64

def fpC : String := "".pushn 'c' 64

def fpD : String := "".pushn 'd' 64

def fpE : String := "".pushn 'e' 64

def fpF : String := "".pushn 'f' 64

def fpZero : String := "".pushn '0' 64

def dActionGood : Digest := ⟨fpA, 20⟩

def dCommand : Digest := ⟨fpB, 10⟩

def dRoot : Digest := ⟨fpC, 5⟩

def dUar : Digest := ⟨fpD, 30⟩

def dActionHuge : Digest := ⟨fpE, 21⟩

def dActionBad : Digest := ⟨fpZero, 22⟩

def dMissing : Digest := ⟨fpF, 3⟩

/-- Sample Action with a five-second timeout. -/
def aGood : Action :=
  { command_digest := some ⟨fpB, 10⟩,
    input_root_digest := some ⟨fpC, 5⟩,
    timeout := some ⟨5, 0⟩ }

/-- Sample Action whose timeout in nanoseconds exceeds the u64 range. -/
def aHuge : Action :=
  { command_digest := some ⟨fpB, 10⟩,
    input_root_digest := some ⟨fpC, 5⟩,
    timeout := some ⟨34359738368, 0⟩ }

/-- Sample Action whose Command digest is absent from the store. -/
def aBad : Action :=
  { command_digest := some ⟨fpF, 3⟩,
    input_root_digest := some ⟨fpC, 5⟩,
    timeout := none }

def cmdGood : Command :=
  { arguments := ["/bin/echo", "hi"],
    environment_variables := [],
    output_files := [],
    output_directories := [],
    working_directory := "" }

def uarGood : UncachedActionResult :=
  { action_digest := some ⟨fpA, 20⟩ }

def sampleStore : Store :=
  { files := [(dActionGood, Blob.action aGood),
              (dCommand, Blob.command cmdGood),
              (dActionHuge, Blob.action aHuge),
              (dActionBad, Blob.action aBad),
              (dUar, Blob.uncachedActionResult uarGood)],
    dirs := [dRoot] }

/-- Sample buildbarn URL naming the uncached action result record. -/
def urlUncached : String :=
  "http://host/blobs/uncached_action_result/main/" ++ fpD ++ "/30"

/-- Sample buildbarn URL naming the action digest directly. -/
def urlAction : String :=
  "http://host/blobs/action/main/" ++ fpA ++ "/20"

def cmdSpecEmpty : CommandSpec :=
  { argv := [],
    input_digest := none,
    input_digest_length := none,
    extra_platform_property := [],
    env := [],
    jdk := none,
    output_file_path := [],
    output_directory_path := [],
    working_directory := none,
    concurrency_available := none,
    cache_key_gen_version := none }

def optEmpty : Opt :=
  { command := cmdSpecEmpty,
    action_digest := { action_digest := none, action_digest_length := none },
    buildbarn_url := none,
    remote_instance_name := none,
    server := none,
    work_dir := none,
    named_cache_path := none,
    overall_deadline_secs := 600,
    execution_rpc_concurrency := 128,
    cache_rpc_concurrency := 128 }

def optRemote : Opt := { optEmpty with server := some "grpc.example:8980" }

/-- Options supplying both the flat shape and the buildbarn URL shape. -/
def optTwoShapes : Opt :=
  { optEmpty with
      command := { cmdSpecEmpty with
        input_digest := some fpA, input_digest_length := some 5 },
      buildbarn_url := some "http://h/action/main/x/1" }

/-- Options whose declared output file escapes the sandbox root. -/
def optBadOutputPath : Opt :=
  { optEmpty with
      command := { cmdSpecEmpty with output_file_path := ["../escape"] } }

def mdSample : ProcessMetadata :=
  { instance_name := some "main", cache_key_gen_version := some "v1" }

end Pants

namespace PantsOptions

/-! ## Options config merging (`src/rust/engine/client/src/options/config.rs`) -/

/-- A toml value (the variants relevant to config files; floats and
datetimes are never inspected by `merge` and are omitted). -/
inductive TomlValue where
  | str (s : String)
  | int (i : Int)
  | boolean (b : Bool)
  | arr (xs : List TomlValue)
  | table (t : List (String × TomlValue))

/-- BTreeMap insert on a toml table: replace in place, else append. -/
def tableInsert : List (String × TomlValue) → String → TomlValue →
    List (String × TomlValue)
  | [], k, v => [(k, v)]
  | (k2, v2) :: rest, k, v =>
    if k2 = k then (k, v) :: rest else (k2, v2) :: tableInsert rest k v

def tableLookup : List (String × TomlValue) → String → Option TomlValue
  | [], _ => none
  | (k2, v2) :: rest, k => if k2 = k then some v2 else tableLookup rest k

/-- First-of-two option choice, used to state the merge lookup lemma. -/
def optOr (o fallback : Option TomlValue) : Option TomlValue :=
  match o with
  | some v => some v
  | none => fallback

/-- A parsed config file: its top-level toml table (the Rust struct holds
a `Value` that `parse` has checked to be a table). -/
structure Config where
  config : List (String × TomlValue)

/-- `Config::default` (lines 20-24): the empty table. -/
def Config.default : Config := ⟨[]⟩

/-- `Config::merge` (lines 95-108): copy the left table and `extend` it
with every top-level entry of the right table, so right entries replace
left ones wholesale. -/
def Config.merge (self other : Config) : Config :=
  ⟨other.config.foldl (fun m kv => tableInsert m kv.1 kv.2) self.config⟩

/-- `Config::merged` (lines 53-60), abstracted over the filesystem: takes
the results of `Config::parse` on each file and folds `merge` over them
left to right, starting from the default config and propagating the first
parse error. -/
def Config.merged (parse_results : List (Except String Config)) : Except String Config :=
  parse_results.foldl
    (fun acc parse_result =>
      match acc with
      | Except.error e => Except.error e
      | Except.ok config =>
        match parse_result with
        | Except.error e => Except.error e
        | Except.ok parsed => Except.ok (config.merge parsed))
    (Except.ok Config.default)

/-- Sample config A: a GLOBAL scope table with two options, plus a key
present only in A. -/
def cfgA : Config :=
  ⟨[("GLOBAL", TomlValue.table [("opt1", TomlValue.str "a"), ("opt2", TomlValue.str "b")]),
    ("onlyA", TomlValue.str "x")]⟩

/-- Sample config B: a GLOBAL scope table setting only one option. -/
def cfgB : Config :=
  ⟨[("GLOBAL", TomlValue.table [("opt1", TomlValue.str "c")])]⟩

end PantsOptions

namespace Pants

/-! ## Theorems -/

/-- Characterization of every successful Action-digest resolution: the
description is empty, the level is the error level, and the timeout is
the wrapped u64 conversion of the timeout of the Action stored at the
digest. -/
theorem extract_ok_fields (store : Store) (action_digest : Digest)
    (es : ProcessExecutionStrategy) (platform : Platform) (inst : Option String)
    (r : Resolved)
    (h : (extract_request_from_action_digest store action_digest es platform inst).1 =
      Except.ok r) :
    r.1.description = "" ∧ r.1.level = Level.error ∧
    (∀ a, store.lookupFile action_digest = some (Blob.action a) →
      r.1.timeout = a.timeout.map (fun t =>
        Duration.from_nanos
          ((intToU64 t.nanos + (intToU64 t.seconds * 1000000000) % U64SIZE) % U64SIZE))) := by
  unfold extract_request_from_action_digest at h
  rcases h1 : store.lookupFile action_digest with _ | blob
  · simp only [h1] at h
    simp at h
  · simp only [h1] at h
    rcases h2 : Action.decode blob with _ | action
    · simp only [h2] at h
      simp at h
    · simp only [h2] at h
      rcases h3 : require_digest action.command_digest with _ | command_digest
      · simp only [h3] at h
        simp at h
      · simp only [h3] at h
        rcases h4 : store.lookupFile command_digest with _ | cblob
        · simp only [h4] at h
          simp at h
        · simp only [h4] at h
          rcases h5 : Command.decode cblob with _ | command
          · simp only [h5] at h
            simp at h
          · simp only [h5] at h
            rcases h6 : command_working_directory command with _ | wd
            · simp only [h6] at h
              simp at h
            · simp only [h6] at h
              rcases h7 : require_digest action.input_root_digest with _ | input_root_digest
              · simp only [h7] at h
                simp at h
              · simp only [h7] at h
                rcases h8 : store.hasDir (InputDigests.with_input_files input_root_digest).complete with _ | _
                · simp only [h8] at h
                  simp at h
                · simp only [h8] at h
                  rcases h9 : collectRelPaths RErr.relPathError command.output_files with _ | ofs
                  · simp only [h9] at h
                    simp at h
                  · simp only [h9] at h
                    rcases h10 : collectRelPaths RErr.relPathError command.output_directories with _ | ods
                    · simp only [h10] at h
                      simp at h
                    · simp only [h10] at h
                      have hr := Except.ok.inj h
                      subst hr
                      refine ⟨rfl, rfl, ?_⟩
                      intro a ha
                      have hb : blob = Blob.action a := Option.some.inj ha
                      subst hb
                      simp only [Action.decode] at h2
                      have ha2 := Except.ok.inj h2
                      subst ha2
                      rfl

/-- Claim C8: execution strategy selection is a pure function of whether a
remote execution server address is configured.  If configured, the
strategy is RemoteExecution carrying the extra platform-property pairs of
the flat-argument flags and the platform is fixed to the remote worker
platform; if not, the strategy is Local and the platform is the probed
current host platform. -/
theorem strategy_selection_pure (args : Opt) (current_platform : Platform) :
    (args.server.isSome = true →
      strategy_and_platform args current_platform =
        (ProcessExecutionStrategy.remoteExecution
          (collection_from_keyvalues_vec args.command.extra_platform_property),
         Platform.linux_x86_64)) ∧
    (args.server = none →
      strategy_and_platform args current_platform =
        (ProcessExecutionStrategy.local, current_platform)) := by
  constructor
  · intro h
    simp [strategy_and_platform, h]
  · intro h
    simp [strategy_and_platform, h]

/-- Witness for C8 at concrete inputs: a configured server selects remote
execution on the fixed platform, an absent server selects local execution
on the probed platform. -/
theorem strategy_selection_pure_witness :
    strategy_and_platform optRemote Platform.macos_arm64 =
      (ProcessExecutionStrategy.remoteExecution
        (collection_from_keyvalues_vec optRemote.command.extra_platform_property),
       Platform.linux_x86_64) ∧
    strategy_and_platform optEmpty Platform.macos_arm64 =
      (ProcessExecutionStrategy.local, Platform.macos_arm64) :=
  ⟨(strategy_selection_pure optRemote Platform.macos_arm64).1 (by decide),
   (strategy_selection_pure optEmpty Platform.macos_arm64).2 (by decide)⟩

/-- Claim C2: the runner pipeline builder produces exactly one of two
shapes.  With a remote execution server address the built runner is a
remote-cache runner whose inner delegate is the raw remote-execution
runner (cache outermost, remote innermost); without one it is a single
local runner and no cache layer is constructed. -/
theorem runner_pipeline_shapes (args : Opt) (md : ProcessMetadata) (store : Store)
    (workdir : String) :
    (∀ address, args.server = some address →
      build_runner args md store workdir =
        CommandRunner.remoteCache
          (CommandRunner.remote address md.instance_name md.cache_key_gen_version store
            (Duration.from_secs args.overall_deadline_secs) (Duration.from_millis 100)
            args.execution_rpc_concurrency)
          md.instance_name md.cache_key_gen_version store address true true
          RemoteCacheWarningsBehavior.backoff CacheContentBehavior.defer
          args.cache_rpc_concurrency (Duration.from_secs 2)) ∧
    (args.server = none →
      build_runner args md store workdir =
        CommandRunner.localRunner store workdir
          (args.named_cache_path.getD NamedCaches.default_path) workdir
          KeepSandboxes.never ∧
      (build_runner args md store workdir).cacheLayers = 0) := by
  constructor
  · intro address h
    simp [build_runner, h]
  · intro h
    constructor
    · simp [build_runner, h]
    · simp [build_runner, h, CommandRunner.cacheLayers]

/-- Witness for C2 at concrete inputs: the remote pipeline is the cache
layer wrapping the raw remote runner, the local pipeline is a lone local
runner with zero cache layers. -/
theorem runner_pipeline_shapes_witness :
    build_runner optRemote mdSample sampleStore "/tmp/work" =
      CommandRunner.remoteCache
        (CommandRunner.remote "grpc.example:8980" (some "main") (some "v1") sampleStore
          (Duration.from_secs 600) (Duration.from_millis 100) 128)
        (some "main") (some "v1") sampleStore "grpc.example:8980" true true
        RemoteCacheWarningsBehavior.backoff CacheContentBehavior.defer
        128 (Duration.from_secs 2) ∧
    (build_runner optEmpty mdSample sampleStore "/tmp/work" =
      CommandRunner.localRunner sampleStore "/tmp/work" NamedCaches.default_path
        "/tmp/work" KeepSandboxes.never ∧
     (build_runner optEmpty mdSample sampleStore "/tmp/work").cacheLayers = 0) :=
  ⟨(runner_pipeline_shapes optRemote mdSample sampleStore "/tmp/work").1
      "grpc.example:8980" rfl,
   (runner_pipeline_shapes optEmpty mdSample sampleStore "/tmp/work").2 rfl⟩

/-- Claim C9: every successfully resolved Action-digest shape yields a
ProcessRequest with an empty description and the workunit level the code
fixes for digest-driven batch replays, `Level::Error`. -/
theorem action_digest_description_and_level (store : Store) (action_digest : Digest)
    (es : ProcessExecutionStrategy) (platform : Platform) (inst : Option String) :
    ∀ dl, resolvedDescriptionLevel
        (extract_request_from_action_digest store action_digest es platform inst).1 =
        some dl →
      dl = ("", Level.error) := by
  intro dl h
  rcases hr : (extract_request_from_action_digest store action_digest es platform inst).1
    with e | r
  · rw [hr] at h
    simp [resolvedDescriptionLevel] at h
  · rw [hr] at h
    obtain ⟨hd, hl, _⟩ := extract_ok_fields store action_digest es platform inst r hr
    simp only [resolvedDescriptionLevel] at h
    have hdl := Option.some.inj h
    rw [hd, hl] at hdl
    exact hdl.symm

/-- Witness for C9: the sample action resolves successfully with empty
description and error level. -/
theorem action_digest_description_and_level_witness :
    (("", Level.error) : String × Level) = ("", Level.error) :=
  action_digest_description_and_level sampleStore dActionGood
    ProcessExecutionStrategy.local Platform.linux_x86_64 none
    ("", Level.error) (by decide)

/-- Claim C4: when the Action at the given digest is present and decodes
but the Command digest it references is absent from the Store, resolution
fails with the store-miss error that names the missing Command digest and
not with a decode-failure error. -/
theorem missing_command_digest_store_miss (store : Store) (action_digest cd : Digest)
    (es : ProcessExecutionStrategy) (platform : Platform) (inst : Option String)
    (a : Action)
    (h1 : store.lookupFile action_digest = some (Blob.action a))
    (h2 : require_digest a.command_digest = Except.ok cd)
    (h3 : store.lookupFile cd = none) :
    (extract_request_from_action_digest store action_digest es platform inst).1 =
      Except.error (RErr.couldNotLoadCommandProto cd) ∧
    ∀ d2, RErr.couldNotLoadCommandProto cd ≠ RErr.errorDeserializingCommand d2 := by
  constructor
  · simp [extract_request_from_action_digest, h1, h2, h3, Action.decode]
  · intro d2
    simp

/-- Witness for C4: the sample action whose Command digest is absent from
the store resolves to the store-miss error naming that digest. -/
theorem missing_command_digest_store_miss_witness :
    (extract_request_from_action_digest sampleStore dActionBad
        ProcessExecutionStrategy.local Platform.linux_x86_64 none).1 =
      Except.error (RErr.couldNotLoadCommandProto dMissing) :=
  (missing_command_digest_store_miss sampleStore dActionBad dMissing
    ProcessExecutionStrategy.local Platform.linux_x86_64 none aBad
    (by decide) (by decide) (by decide)).1

/-- Claim C6: a buildbarn URL with fewer than four segments after trimming
trailing slashes and splitting on the slash character, or one whose kind
segment is neither action nor uncached_action_result, resolves to a
malformed-URL error with no Store access. -/
theorem buildbarn_malformed_url_no_store_access
    (store : Store) (url : String) (es : ProcessExecutionStrategy) (platform : Platform)
    (parts : List String) (kind inst s2 s3 : String) (rest : List String)
    (hp : splitSlashes (trimTrailingSlashes url) = parts)
    (h : parts.length < 4 ∨
         (4 ≤ parts.length ∧
          parts.drop (parts.length - 4) = kind :: inst :: s2 :: s3 :: rest ∧
          kind ≠ "action" ∧ kind ≠ "uncached_action_result")) :
    (extract_request_from_buildbarn_url store url es platform).2 = [] ∧
    ∃ e, (extract_request_from_buildbarn_url store url es platform).1 = Except.error e ∧
      (e = RErr.urlNotEnoughParts ∨ e = RErr.wrongKind kind) := by
  rcases h with h4 | ⟨h4, hdrop, hk1, hk2⟩
  · refine ⟨?_, RErr.urlNotEnoughParts, ?_, Or.inl rfl⟩ <;>
      simp [extract_request_from_buildbarn_url, hp, h4]
  · have hlt := Nat.not_lt.mpr h4
    refine ⟨?_, RErr.wrongKind kind, ?_, Or.inr rfl⟩ <;>
      simp [extract_request_from_buildbarn_url, hp, hlt, hdrop, hk1, hk2]

/-- Witness for C6: a URL with an unrecognized kind segment fails with the
wrong-kind error and an empty access log. -/
theorem buildbarn_malformed_url_no_store_access_witness :
    (extract_request_from_buildbarn_url sampleStore "x/wrongkind/main/aa/12"
        ProcessExecutionStrategy.local Platform.linux_x86_64).2 = [] ∧
    ∃ e, (extract_request_from_buildbarn_url sampleStore "x/wrongkind/main/aa/12"
        ProcessExecutionStrategy.local Platform.linux_x86_64).1 = Except.error e ∧
      (e = RErr.urlNotEnoughParts ∨ e = RErr.wrongKind "wrongkind") :=
  buildbarn_malformed_url_no_store_access sampleStore "x/wrongkind/main/aa/12"
    ProcessExecutionStrategy.local Platform.linux_x86_64
    ["x", "wrongkind", "main", "aa", "12"] "wrongkind" "main" "aa" "12" []
    (by decide) (Or.inr ⟨by decide, by decide, by decide, by decide⟩)

/-- Claim C1: whenever the number of supplied input shapes differs from
one, `make_request` returns one of the two descriptive input errors and
performs no Store access. -/
theorem make_request_ambiguous_or_missing_input (store : Store) (args : Opt)
    (current_platform : Platform) (h : shapesSupplied args ≠ 1) :
    (make_request store args current_platform).2 = [] ∧
    ∃ e, (make_request store args current_platform).1 = Except.error e ∧
      (e = RErr.mustSpecify ∨ e = RErr.unsupportedCombination) := by
  unfold make_request
  rcases h1 : args.command.input_digest with _ | v1 <;>
  rcases h2 : args.command.input_digest_length with _ | v2 <;>
  rcases h3 : args.action_digest.action_digest with _ | v3 <;>
  rcases h4 : args.action_digest.action_digest_length with _ | v4 <;>
  rcases h5 : args.buildbarn_url with _ | v5 <;>
  simp_all [shapesSupplied, flatShapeSupplied, actionShapeSupplied, urlShapeSupplied]

/-- Witness for C1: supplying the flat shape and a buildbarn URL at the
same time yields the combination error and an empty access log. -/
theorem make_request_ambiguous_or_missing_input_witness :
    (make_request sampleStore optTwoShapes Platform.linux_x86_64).2 = [] ∧
    ∃ e, (make_request sampleStore optTwoShapes Platform.linux_x86_64).1 = Except.error e ∧
      (e = RErr.mustSpecify ∨ e = RErr.unsupportedCombination) :=
  make_request_ambiguous_or_missing_input sampleStore optTwoShapes Platform.linux_x86_64
    (by decide)

/-- Every failure of a relative-path collect carries a wrapped path
message. -/
theorem collectRelPaths_error_wrap (wrap : String → RErr) :
    ∀ (l : List String) (e : RErr), collectRelPaths wrap l = Except.error e →
      ∃ msg, e = wrap msg := by
  intro l
  induction l with
  | nil =>
    intro e h
    simp [collectRelPaths] at h
  | cons p rest ih =>
    intro e h
    simp only [collectRelPaths] at h
    rcases hp : RelativePath.new p with msg | rp
    · simp only [hp] at h
      exact ⟨msg, (Except.error.inj h).symm⟩
    · simp only [hp] at h
      rcases hr : collectRelPaths wrap rest with e2 | rps
      · simp only [hr] at h
        obtain ⟨m, hm⟩ := ih e2 hr
        exact ⟨m, (Except.error.inj h) ▸ hm⟩
      · simp only [hr] at h
        simp at h

/-- A successful relative-path collect certifies every member path. -/
theorem collectRelPaths_ok_mem (wrap : String → RErr) :
    ∀ (l : List String) (rps : List RelativePath),
      collectRelPaths wrap l = Except.ok rps →
      ∀ p ∈ l, ∃ rp, RelativePath.new p = Except.ok rp := by
  intro l
  induction l with
  | nil =>
    intro rps h p hp
    cases hp
  | cons q rest ih =>
    intro rps h p hp
    simp only [collectRelPaths] at h
    rcases hq : RelativePath.new q with msg | rp
    · simp only [hq] at h
      simp at h
    · simp only [hq] at h
      rcases hr : collectRelPaths wrap rest with e2 | rps2
      · simp only [hr] at h
        simp at h
      · rcases List.mem_cons.mp hp with hp1 | hp2
        · subst hp1
          exact ⟨rp, hq⟩
        · exact ih rps2 hr p hp2

/-- Claim C7: a flat-shape input in which a declared output file path,
output directory path, or working directory fails relative-path
validation is rejected with a path-validation error and no input-digest
resolution against the Store is attempted. -/
theorem flat_args_bad_path_rejected (store : Store) (args : Opt) (input_files : Digest)
    (es : ProcessExecutionStrategy) (platform : Platform)
    (h : (∃ q ∈ args.command.output_file_path, ∃ msg, RelativePath.new q = Except.error msg) ∨
         (∃ q ∈ args.command.output_directory_path, ∃ msg, RelativePath.new q = Except.error msg) ∨
         (∃ wd, args.command.working_directory = some wd ∧
            ∃ msg, RelativePath.new wd = Except.error msg)) :
    (make_request_from_flat_args store args input_files es platform).2 = [] ∧
    ∃ e, (make_request_from_flat_args store args input_files es platform).1 = Except.error e ∧
      e.isPathError = true := by
  rcases hof : collectRelPaths RErr.relPathError args.command.output_file_path with e1 | rps1
  · obtain ⟨msg, hmsg⟩ := collectRelPaths_error_wrap RErr.relPathError _ e1 hof
    subst hmsg
    exact ⟨by simp [make_request_from_flat_args, hof],
           RErr.relPathError msg, by simp [make_request_from_flat_args, hof], rfl⟩
  · rcases hod : collectRelPaths RErr.relPathError args.command.output_directory_path
      with e2 | rps2
    · obtain ⟨msg, hmsg⟩ := collectRelPaths_error_wrap RErr.relPathError _ e2 hod
      subst hmsg
      exact ⟨by simp [make_request_from_flat_args, hof, hod],
             RErr.relPathError msg, by simp [make_request_from_flat_args, hof, hod], rfl⟩
    · rcases h with h | h | h
      · obtain ⟨q, hq, msg, hmsg⟩ := h
        obtain ⟨rp, hrp⟩ := collectRelPaths_ok_mem RErr.relPathError _ rps1 hof q hq
        rw [hrp] at hmsg
        simp at hmsg
      · obtain ⟨q, hq, msg, hmsg⟩ := h
        obtain ⟨rp, hrp⟩ := collectRelPaths_ok_mem RErr.relPathError _ rps2 hod q hq
        rw [hrp] at hmsg
        simp at hmsg
      · obtain ⟨wd, hwd, msg, hmsg⟩ := h
        refine ⟨?_, RErr.workingDirNotRelative msg, ?_, rfl⟩ <;>
          simp [make_request_from_flat_args, hof, hod, flat_working_directory, hwd, hmsg]

/-- Witness for C7: an output file path with a parent-directory segment is
rejected with a path error and an empty access log. -/
theorem flat_args_bad_path_rejected_witness :
    (make_request_from_flat_args sampleStore optBadOutputPath (Digest.new fpA 5)
        ProcessExecutionStrategy.local Platform.linux_x86_64).2 = [] ∧
    ∃ e, (make_request_from_flat_args sampleStore optBadOutputPath (Digest.new fpA 5)
        ProcessExecutionStrategy.local Platform.linux_x86_64).1 = Except.error e ∧
      e.isPathError = true :=
  flat_args_bad_path_rejected sampleStore optBadOutputPath (Digest.new fpA 5)
    ProcessExecutionStrategy.local Platform.linux_x86_64
    (Or.inl ⟨"../escape", by decide, "../escape", by decide⟩)

/-- Claim C3: for a Store holding an uncached-action-result record whose
embedded action digest is D, a Result-URL of kind uncached_action_result
carrying the record fingerprint and length resolves to an identical
result as a Result-URL of kind action carrying the fingerprint and length
of D, for the same instance segment. -/
theorem buildbarn_uncached_equals_action_url (store : Store) (u1 u2 : String)
    (es : ProcessExecutionStrategy) (platform : Platform)
    (ps1 ps2 : List String) (inst f1 l1 f2 l2 : String)
    (arfp : Fingerprint) (arlen : Nat) (ar : UncachedActionResult) (D : Digest)
    (hp1 : splitSlashes (trimTrailingSlashes u1) = ps1)
    (hl1 : 4 ≤ ps1.length)
    (hd1 : ps1.drop (ps1.length - 4) = ["uncached_action_result", inst, f1, l1])
    (hf1 : Fingerprint.from_hex_string f1 = Except.ok arfp)
    (hn1 : parseNat l1 = some arlen)
    (hstore : store.lookupFile (Digest.new arfp arlen) =
      some (Blob.uncachedActionResult ar))
    (hreq : require_digest ar.action_digest = Except.ok D)
    (hp2 : splitSlashes (trimTrailingSlashes u2) = ps2)
    (hl2 : 4 ≤ ps2.length)
    (hd2 : ps2.drop (ps2.length - 4) = ["action", inst, f2, l2])
    (hf2 : Fingerprint.from_hex_string f2 = Except.ok D.hash)
    (hn2 : parseNat l2 = some D.size_bytes) :
    (extract_request_from_buildbarn_url store u1 es platform).1 =
    (extract_request_from_buildbarn_url store u2 es platform).1 := by
  have hlt1 := Nat.not_lt.mpr hl1
  have hlt2 := Nat.not_lt.mpr hl2
  simp only [Digest.new] at hstore
  simp only [extract_request_from_buildbarn_url, hp1, hp2]
  rw [if_neg hlt1, if_neg hlt2]
  simp only [hd1, hd2]
  simp [hf1, hn1, hstore, hreq, hf2, hn2, UncachedActionResult.decode, Digest.new]

/-- Witness for C3: the sample uncached-action-result URL and the direct
action URL resolve to the same result. -/
theorem buildbarn_uncached_equals_action_url_witness :
    (extract_request_from_buildbarn_url sampleStore urlUncached
        ProcessExecutionStrategy.local Platform.linux_x86_64).1 =
    (extract_request_from_buildbarn_url sampleStore urlAction
        ProcessExecutionStrategy.local Platform.linux_x86_64).1 :=
  buildbarn_uncached_equals_action_url sampleStore urlUncached urlAction
    ProcessExecutionStrategy.local Platform.linux_x86_64
    ["http:", "", "host", "blobs", "uncached_action_result", "main", fpD, "30"]
    ["http:", "", "host", "blobs", "action", "main", fpA, "20"]
    "main" fpD "30" fpA "20" fpD 30 uarGood dActionGood
    (by decide) (by decide) (by decide) (by decide) (by decide) (by decide)
    (by decide) (by decide) (by decide) (by decide) (by decide) (by decide)

/-- Claim C5 as amended: when the Action timeout is present with
non-negative seconds and nanos whose total nanosecond count fits in u64,
the resolved timeout is exactly that duration, and an absent timeout
resolves to none.  (As stated the claim fails for totals of at least two
to the sixty-fourth nanoseconds, where the conversion wraps.) -/
theorem action_timeout_conversion (store : Store) (action_digest : Digest)
    (es : ProcessExecutionStrategy) (platform : Platform) (inst : Option String)
    (a : Action)
    (ha : store.lookupFile action_digest = some (Blob.action a)) :
    (∀ s n : Int, a.timeout = some ⟨s, n⟩ → 0 ≤ s → 0 ≤ n →
       s.toNat * 1000000000 + n.toNat < U64SIZE →
       ∀ od, resolvedTimeout
           (extract_request_from_action_digest store action_digest es platform inst).1 =
           some od →
         od = some (Duration.from_nanos (s.toNat * 1000000000 + n.toNat))) ∧
    (a.timeout = none →
       ∀ od, resolvedTimeout
           (extract_request_from_action_digest store action_digest es platform inst).1 =
           some od →
         od = none) := by
  constructor
  · intro s n ht hs hn hb od hod
    rcases hr : (extract_request_from_action_digest store action_digest es platform inst).1
      with e | r
    · rw [hr] at hod
      simp [resolvedTimeout] at hod
    · rw [hr] at hod
      simp only [resolvedTimeout] at hod
      obtain ⟨-, -, htime⟩ := extract_ok_fields store action_digest es platform inst r hr
      have h2 := htime a ha
      rw [ht] at h2
      simp only [Option.map_some'] at h2
      have harg : (intToU64 n + intToU64 s * 1000000000 % U64SIZE) % U64SIZE =
          s.toNat * 1000000000 + n.toNat := by
        simp only [intToU64, U64SIZE] at hb ⊢
        omega
      rw [harg] at h2
      rw [h2] at hod
      exact (Option.some.inj hod).symm
  · intro ht od hod
    rcases hr : (extract_request_from_action_digest store action_digest es platform inst).1
      with e | r
    · rw [hr] at hod
      simp [resolvedTimeout] at hod
    · rw [hr] at hod
      simp only [resolvedTimeout] at hod
      obtain ⟨-, -, htime⟩ := extract_ok_fields store action_digest es platform inst r hr
      have h2 := htime a ha
      rw [ht] at h2
      simp only [Option.map_none'] at h2
      rw [h2] at hod
      exact (Option.some.inj hod).symm

/-- Witness for the amended C5: the sample Action with timeout seconds 5
and nanos 0 resolves to a timeout of exactly 5 seconds with zero
nanosecond component. -/
theorem action_timeout_conversion_witness :
    some (⟨5, 0⟩ : Duration) =
      some (Duration.from_nanos ((5 : Int).toNat * 1000000000 + (0 : Int).toNat)) :=
  (action_timeout_conversion sampleStore dActionGood ProcessExecutionStrategy.local
      Platform.linux_x86_64 none aGood (by decide)).1
    5 0 (by decide) (by decide) (by decide) (by decide)
    (some (⟨5, 0⟩ : Duration)) (by decide)

/-- Counterexample to C5 as stated: the sample Action with non-negative
timeout seconds 34359738368 (two to the 35th) and nanos 0 resolves
successfully, but its resolved timeout is the u64-wrapped duration, not
the exact duration of 34359738368 seconds. -/
theorem action_timeout_exact_counterexample :
    resolvedTimeout (extract_request_from_action_digest sampleStore dActionHuge
        ProcessExecutionStrategy.local Platform.linux_x86_64 none).1 =
      some (some ⟨15912994294, 290448384⟩) ∧
    (some (⟨15912994294, 290448384⟩ : Duration) : Option Duration) ≠
      some (Duration.from_nanos
        ((34359738368 : Int).toNat * 1000000000 + (0 : Int).toNat)) := by
  decide

end Pants

namespace PantsOptions

/-- Lookup after a single BTreeMap insert. -/
theorem tableLookup_insert (m : List (String × TomlValue)) (k0 k : String)
    (v0 : TomlValue) :
    tableLookup (tableInsert m k0 v0) k = if k0 = k then some v0 else tableLookup m k := by
  induction m with
  | nil => simp [tableInsert, tableLookup]
  | cons kv rest ih =>
    obtain ⟨k2, v2⟩ := kv
    by_cases h2 : k2 = k0
    · subst h2
      simp only [tableInsert, if_pos rfl, tableLookup]
      by_cases hk : k2 = k
      · simp [hk]
      · simp [hk]
    · simp only [tableInsert, if_neg h2, tableLookup, ih]
      by_cases hk : k2 = k
      · subst hk
        have hk0 : ¬ k0 = k2 := fun hh => h2 hh.symm
        simp [hk0]
      · simp [hk]

/-- A key absent from the key list looks up to none. -/
theorem tableLookup_none_of_not_mem (m : List (String × TomlValue)) (k : String)
    (h : k ∉ m.map Prod.fst) : tableLookup m k = none := by
  induction m with
  | nil => rfl
  | cons kv rest ih =>
    obtain ⟨k2, v2⟩ := kv
    simp only [List.map_cons, List.mem_cons] at h
    push_neg at h
    simp only [tableLookup, if_neg (fun hh : k2 = k => h.1 hh.symm)]
    exact ih h.2

/-- Lookup through a BTreeMap extend: entries of the right table win,
entries only in the left table are kept. -/
theorem tableLookup_extend (others : List (String × TomlValue)) :
    ∀ (self : List (String × TomlValue)) (k : String),
      (others.map Prod.fst).Nodup →
      tableLookup (others.foldl (fun m kv => tableInsert m kv.1 kv.2) self) k =
        optOr (tableLookup others k) (tableLookup self k) := by
  induction others with
  | nil =>
    intro self k h
    simp [tableLookup, optOr]
  | cons kv rest ih =>
    intro self k h
    obtain ⟨k0, v0⟩ := kv
    simp only [List.map, List.nodup_cons] at h
    obtain ⟨hk0, hrest⟩ := h
    simp only [List.foldl]
    rw [ih (tableInsert self k0 v0) k hrest]
    by_cases hk : k0 = k
    · subst hk
      have hnone : tableLookup rest k0 = none :=
        tableLookup_none_of_not_mem rest k0 hk0
      simp [tableLookup, hnone, tableLookup_insert, optOr]
    · cases htail : tableLookup rest k <;>
        simp [tableLookup, hk, tableLookup_insert, optOr, htail]

/-- Claim C10: Config merge is a shallow, last-wins merge at the
granularity of top-level keys: a key present in the right config maps to
the right config value wholesale, keys only in the left config are kept,
and Config merged folds parse results left to right from the default
config so that later files take precedence. -/
theorem config_merge_shallow_last_wins (A B : Config) (k : String)
    (hB : (B.config.map Prod.fst).Nodup) :
    ((tableLookup B.config k).isSome = true →
      tableLookup (A.merge B).config k = tableLookup B.config k) ∧
    (tableLookup B.config k = none →
      tableLookup (A.merge B).config k = tableLookup A.config k) ∧
    Config.merged [Except.ok A, Except.ok B] =
      Except.ok ((Config.default.merge A).merge B) := by
  refine ⟨?_, ?_, rfl⟩
  · intro h
    unfold Config.merge
    rw [tableLookup_extend B.config A.config k hB]
    rcases ho : tableLookup B.config k with _ | v
    · rw [ho] at h
      simp at h
    · simp [optOr]
  · intro h
    unfold Config.merge
    rw [tableLookup_extend B.config A.config k hB, h]
    simp [optOr]

/-- Witness for C10: merging the sample configs keeps the entire GLOBAL
table of the right config, discarding the option set only in the left
GLOBAL table, while the key present only in the left config survives. -/
theorem config_merge_shallow_last_wins_witness :
    tableLookup (cfgA.merge cfgB).config "GLOBAL" = tableLookup cfgB.config "GLOBAL" ∧
    tableLookup (cfgA.merge cfgB).config "onlyA" = tableLookup cfgA.config "onlyA" :=
  ⟨(config_merge_shallow_last_wins cfgA cfgB "GLOBAL" (by decide)).1 (by decide),
   (config_merge_shallow_last_wins cfgA cfgB "onlyA" (by decide)).2.1 (by rfl)⟩

end PantsOptions
